import Mathlib

/-!
Verification development for the Agentic_RAG_chatbot repository
(src/agent.py, src/main.py, src/vector_store.py, src/web_search.py,
src/config.py).

The repository is glue around external collaborators (LLM, FAISS vector
index, Tavily web search, PDF loader).  We shallowly embed the state the
code owned by the repository manages — the per-session agent registry, each
conversational memory of each agent, the vector-store wrapper state and the
single on-disk index path — together with the behaviour of the external
`ConversationBufferWindowMemory` / `AgentExecutor` langchain components
exactly as the code configures and invokes them.  External effects
(PDF parsing, FAISS build, disk save, LLM action choices) are inputs to
the embedded functions, so every reachable control path of the source is
a choice of those inputs.
-/

namespace RAGChatbot

/-- Message roles.  `chat_memory.add_user_message` creates `HumanMessage`,
`add_ai_message` creates `AIMessage`; these are the only message kinds the
repository ever stores. -/
inductive Role where
  | user
  | assistant
deriving DecidableEq

/-- One stored chat message (langchain `HumanMessage`/`AIMessage` content). -/
structure Msg where
  role : Role
  content : String
deriving DecidableEq

/-- Embeds the langchain `ConversationBufferWindowMemory` as constructed in
`RAGAgent.__init__` (src/agent.py lines 26-31): `k` is the configured
window parameter (`k=20` in the source) and `chatMemory` is the underlying
`chat_memory.messages` list.  In langchain, `save_context` and the
`add_*_message` helpers append to `chat_memory.messages` unconditionally;
the window `k` is applied only when the buffer is *read* for the prompt
(`buffer = messages[-2*k:]`).  No eviction ever happens on the stored
list. -/
structure WindowMemory where
  k : Nat
  chatMemory : List Msg
deriving DecidableEq

namespace WindowMemory

/-- The memory as initialised in `RAGAgent.__init__`: `k=20`, empty log. -/
def init : WindowMemory := { k := 20, chatMemory := [] }

/-- Models `self.memory.chat_memory.add_user_message(content)`: appends a
`HumanMessage` to the stored list. -/
def addUserMessage (m : WindowMemory) (content : String) : WindowMemory :=
  { m with chatMemory := m.chatMemory ++ [{ role := Role.user, content := content }] }

/-- Models `self.memory.chat_memory.add_ai_message(content)`: appends an
`AIMessage` to the stored list. -/
def addAiMessage (m : WindowMemory) (content : String) : WindowMemory :=
  { m with chatMemory := m.chatMemory ++ [{ role := Role.assistant, content := content }] }

/-- Models `memory.save_context({"input": q}, {"output": a})`, as performed by the
langchain `Chain` machinery after a successful `AgentExecutor` run: appends
the human input then the AI output to `chat_memory.messages`.  (It is *not*
called when the run raises.) -/
def saveContext (m : WindowMemory) (input output : String) : WindowMemory :=
  (m.addUserMessage input).addAiMessage output

/-- The windowed buffer `ConversationBufferWindowMemory` exposes when the
prompt is built: `self.chat_memory.messages[-self.k * 2:]`. -/
def buffer (m : WindowMemory) : List Msg :=
  m.chatMemory.drop (m.chatMemory.length - 2 * m.k)

/-- Models `self.memory.clear()` (src/agent.py line 174): empties the stored log. -/
def clear (m : WindowMemory) : WindowMemory :=
  { m with chatMemory := [] }

end WindowMemory

/-- The per-message rendering inside `RAGAgent.get_memory_summary`
(src/agent.py lines 179-183): a `HumanMessage` becomes
`{"role": "user", ...}`, an `AIMessage` `{"role": "assistant", ...}`. -/
def renderMessage (msg : Msg) : String × String :=
  match msg.role with
  | Role.user => ("user", msg.content)
  | Role.assistant => ("assistant", msg.content)

/-- Models `RAGAgent.get_memory_summary` (src/agent.py lines 176-184): walks the
full `chat_memory.messages` list and renders each message.  Both stored
roles match one of the two `isinstance` branches, so every stored message
is exported, in order. -/
def get_memory_summary (m : WindowMemory) : List (String × String) :=
  m.chatMemory.map renderMessage

/-- The loop body of `RAGAgent.load_memory_from_messages` (src/agent.py
lines 189-193): `add_user_message` when the role is `"user"`,
`add_ai_message` when it is `"assistant"`, nothing otherwise. -/
def replayMessage (acc : WindowMemory) (p : String × String) : WindowMemory :=
  if p.1 = "user" then acc.addUserMessage p.2
  else if p.1 = "assistant" then acc.addAiMessage p.2
  else acc

/-- Models `RAGAgent.load_memory_from_messages` (src/agent.py lines 186-193):
`self.memory.clear()` then replay each entry. -/
def load_memory_from_messages (m : WindowMemory) (messages : List (String × String)) :
    WindowMemory :=
  messages.foldl replayMessage m.clear

/-- Outcome of one `self.agent_executor.invoke({"input": question})` call:
the external executor either returns an output dictionary or raises. -/
inductive ExecOutcome where
  | success (output : String)
  | failure (err : String)
deriving DecidableEq

/-- Models `RAGAgent.query` (src/agent.py lines 164-170) together with the memory
effect of `AgentExecutor.invoke`.  On success the langchain `Chain` calls
`prep_outputs`, which invokes `memory.save_context(inputs, outputs)`,
appending the question and the answer; the method returns
`result["output"]`.  On an exception, `Chain.__call__` re-raises *before*
`prep_outputs`, so the memory is untouched, and the `except` branch in
`query` returns `f"Agent error: {str(e)}"`. -/
def query (m : WindowMemory) (question : String) (outcome : ExecOutcome) :
    String × WindowMemory :=
  match outcome with
  | ExecOutcome.success out => (out, m.saveContext question out)
  | ExecOutcome.failure e => ("Agent error: " ++ e, m)

/-- Models `n` consecutive user-message appends (concretely: messages "0", "1", …),
starting from the freshly initialised memory.  Used to drive the eviction
claims on concrete inputs. -/
def appendUserN (n : Nat) : WindowMemory :=
  (List.range n).foldl (fun m i => m.addUserMessage (toString i)) WindowMemory.init

/-! ## Vector-store wrapper (src/vector_store.py)

A FAISS index is identified, for the purposes of these claims, by the list
of document chunks it was built from.  `config.VECTORSTORE_PATH` is a single
module-level constant (`"vectorstore"`), so the on-disk state is one
`Option` cell: the index content persisted at that shared path, or `none`. -/

/-- The mutable fields of `VectorStore` (src/vector_store.py lines 11-14)
that the claims observe: `self.vectorstore` and `self.retriever`, both
`None` after `__init__`. -/
structure VSState where
  vectorstore : Option (List String)
  retriever : Option (List String)
deriving DecidableEq

/-- Models `VectorStore.__init__`: `vectorstore = None`, `retriever = None`. -/
def VSState.initial : VSState := { vectorstore := none, retriever := none }

/-- Outcomes of the external collaborator calls made during one
`RAGAgent.load_documents` run: `pdfLoad` is the result of
`PyPDFLoader(...).load()` + splitting (`none` = the call raised, `some cs` =
the chunk list produced), `buildOk` is whether `FAISS.from_documents`
succeeds, `saveOk` whether `FAISS.save_local` succeeds, and `diskAfterFailedSave`
the (unspecified, possibly partially written) content left at the index
path when `save_local` raises midway. -/
structure IngestEnv where
  pdfLoad : Option (List String)
  buildOk : Bool
  saveOk : Bool
  diskAfterFailedSave : Option (List String)
deriving DecidableEq

/-- Models `RAGAgent.load_documents` (src/agent.py lines 195-204) with the called
`VectorStore` methods inlined (src/vector_store.py lines 24-44), returning
`(return value, new VectorStore state, new on-disk index content)`:

* `self.vector_store.load_documents(file_path)` — if the PDF load/split
  raises, the `except` returns `False` with nothing mutated;
* `create_vectorstore`: `self.vectorstore = FAISS.from_documents(...)` —
  if the build raises, the assignment never happens and the `except`
  returns `False` with nothing mutated; otherwise `self.vectorstore` and
  `self.retriever` are replaced by the *new* index built from exactly the
  new chunks;
* `save_vectorstore`: `self.vectorstore` is now set, so `save_local` runs;
  on success the shared path holds the new index and the method returns
  `True`; if `save_local` raises, the `except` returns `False` but the
  in-memory swap has already happened and the path content is whatever the
  interrupted write left. -/
def load_documents (vs : VSState) (disk : Option (List String)) (env : IngestEnv) :
    Bool × VSState × Option (List String) :=
  match env.pdfLoad with
  | none => (false, vs, disk)
  | some chunks =>
    if env.buildOk then
      let vs1 : VSState := { vectorstore := some chunks, retriever := some chunks }
      if env.saveOk then (true, vs1, some chunks)
      else (false, vs1, env.diskAfterFailedSave)
    else (false, vs, disk)

/-- Models `VectorStore.load_vectorstore` (src/vector_store.py lines 46-58) as
invoked through `RAGAgent.load_existing_vectorstore`: when a well-formed
index is present at the shared path, `FAISS.load_local` succeeds and both
`self.vectorstore` and `self.retriever` are replaced by it; when the path
is absent the call raises, the assignments never happen, and the state is
unchanged. -/
def load_vectorstore (vs : VSState) (disk : Option (List String)) : VSState :=
  match disk with
  | some c => { vectorstore := some c, retriever := some c }
  | none => vs

/-! ## Session registry and HTTP handlers (src/main.py)

`rag_agents: Dict[str, RAGAgent]` keyed by session id.  A Python dict has
unique keys; we embed it as an association list (insertion order) with
first-match lookup. -/

/-- The per-session state the claims observe: the `ConversationBufferWindowMemory` of the agent and its `VectorStore`. -/
structure AgentState where
  memory : WindowMemory
  vectorStore : VSState
deriving DecidableEq

/-- Models `RAGAgent.__init__` (src/agent.py lines 19-35): fresh window memory
(`k=20`, empty log) and a fresh `VectorStore` with no index attached. -/
def AgentState.initial : AgentState :=
  { memory := WindowMemory.init, vectorStore := VSState.initial }

/-- The `rag_agents` mapping. -/
abbrev Registry := List (String × AgentState)

/-- Models `session_id in rag_agents` / `rag_agents[session_id]`: first entry with
the given key. -/
def Registry.lookup (r : Registry) (id : String) : Option AgentState :=
  match r with
  | [] => none
  | p :: rest => if p.1 = id then some p.2 else Registry.lookup rest id

/-- Models `rag_agents[session_id] = agent` for a key that is not yet present:
dict insertion appends. -/
def Registry.insert (r : Registry) (id : String) (a : AgentState) : Registry :=
  r ++ [(id, a)]

/-- In-place mutation of the agent object stored under `id` (Python mutates
the shared `RAGAgent` instance; here we rewrite the entry). -/
def Registry.updateAgent (r : Registry) (id : String) (f : AgentState → AgentState) :
    Registry :=
  r.map (fun p => if p.1 = id then (p.1, f p.2) else p)

/-- Models `del rag_agents[session_id]`: removes the key. -/
def Registry.eraseKey (r : Registry) (id : String) : Registry :=
  r.filter (fun p => p.1 ≠ id)

/-- Models `get_or_create_agent` (src/main.py lines 32-40): if the id is absent,
construct `RAGAgent(session_id=session_id)` and, when
`os.path.exists(config.VECTORSTORE_PATH)` (here: the disk cell is `some`),
call `load_existing_vectorstore()` on it; return the mapped agent.  Returns
`(agent, updated registry)`. -/
def get_or_create_agent (r : Registry) (disk : Option (List String)) (id : String) :
    AgentState × Registry :=
  match r.lookup id with
  | some a => (a, r)
  | none =>
    let a : AgentState :=
      match disk with
      | some _ =>
        { AgentState.initial with
            vectorStore := load_vectorstore VSState.initial disk }
      | none => AgentState.initial
    (a, r.insert id a)

/-- Result of an HTTP handler: a JSON payload or a raised `HTTPException`
with a status code and detail string. -/
inductive ApiResult (α : Type) where
  | ok (payload : α)
  | httpError (code : Nat) (detail : String)
deriving DecidableEq

/-- Models `delete_session` (src/main.py lines 148-155): if the id is mapped,
delete it and return the success message; otherwise raise 404. -/
def delete_session (r : Registry) (id : String) : ApiResult String × Registry :=
  match r.lookup id with
  | some _ =>
    (ApiResult.ok ("Session " ++ id ++ " deleted successfully"), r.eraseKey id)
  | none => (ApiResult.httpError 404 "Session not found", r)

/-- Models `clear_session` (src/main.py lines 74-83).  `request.session_id or
str(uuid.uuid4())`: Python `or` falls through to a fresh uuid both when the
field is `None` and when it is the empty string (`clear_session_sid`
embeds that expression).  The fresh uuid is the external input `freshUuid`.
Then `get_or_create_agent` (never raising) and `agent.clear_memory()`
(src/agent.py lines 172-174), and a success response; no path raises, so
no 404 (or any error status) is possible. -/
def clear_session_sid (reqSessionId : Option String) (freshUuid : String) : String :=
  match reqSessionId with
  | none => freshUuid
  | some s => if s = "" then freshUuid else s

def clear_session (r : Registry) (disk : Option (List String))
    (reqSessionId : Option String) (freshUuid : String) :
    ApiResult (String × String) × Registry :=
  let sid : String := clear_session_sid reqSessionId freshUuid
  let res := get_or_create_agent r disk sid
  let r2 := res.2.updateAgent sid (fun a => { a with memory := a.memory.clear })
  (ApiResult.ok (sid, "Session memory cleared successfully"), r2)

/-- Python `s.endswith(suffix)`: true iff the character sequence `suffix`
is a suffix of the character sequence `s` (a case-sensitive check; modelled
on the underlying character lists). -/
def pyEndsWith (s suffix : String) : Bool :=
  s.data.drop (s.data.length - suffix.data.length) == suffix.data

/-- The full server-side state `upload_document` can touch: the session
registry, the index content at the shared `config.VECTORSTORE_PATH`, and
the set of file names saved under `config.DOCUMENTS_PATH`. -/
structure ServerState where
  registry : Registry
  disk : Option (List String)
  documentsDir : List String
deriving DecidableEq

/-- Models `upload_document` (src/main.py lines 95-130).  Control flow:

1. `if not file.filename.endswith(".pdf")`: raise 400 *before* the
   documents directory is created, the file is written, or any agent or
   index is touched;
2. save the uploaded file under `config.DOCUMENTS_PATH`;
3. with a (truthy) `session_id`: `get_or_create_agent(session_id)` then
   `agent.load_documents(file_path)` — which replaces the index of that agent
   with one built from exactly the chunks of the new file and saves it to the
   single shared path; with no (or an empty, hence falsy) `session_id`:
   the same through the `"default"` agent, then every registered agent
   re-runs `load_existing_vectorstore()` against the shared path;
4. `success` → 200 message, otherwise raise 500 — note the mutations of
   steps 2-3 are *not* rolled back by the raise.

The session whose agent performs the ingestion: the explicit `session_id`
when present and truthy, otherwise `"default"` (`upload_target`). -/
def upload_target (sessionId : Option String) : String :=
  match sessionId with
  | some s => if s = "" then "default" else s
  | none => "default"

/-- The handler body of `upload_document`; see the comment on
`upload_target` above for the control flow being embedded. -/
def upload_document (st : ServerState) (filename : String)
    (sessionId : Option String) (env : IngestEnv) :
    ApiResult String × ServerState :=
  if ¬ pyEndsWith filename ".pdf" then
    (ApiResult.httpError 400 "Only PDF files are supported", st)
  else
    let st1 : ServerState :=
      { st with documentsDir := st.documentsDir ++ [filename] }
    let targetSid : String := upload_target sessionId
    let got := get_or_create_agent st1.registry st1.disk targetSid
    let ing := load_documents got.1.vectorStore st1.disk env
    let reg2 := got.2.updateAgent targetSid (fun a => { a with vectorStore := ing.2.1 })
    let reg3 :=
      match sessionId with
      | some s =>
        if s = "" then reg2.map (fun p => (p.1, { p.2 with vectorStore := load_vectorstore p.2.vectorStore ing.2.2 }))
        else reg2
      | none => reg2.map (fun p => (p.1, { p.2 with vectorStore := load_vectorstore p.2.vectorStore ing.2.2 }))
    let st2 : ServerState := { st1 with registry := reg3, disk := ing.2.2 }
    if ing.1 then
      (ApiResult.ok ("Document " ++ filename ++ " uploaded and indexed successfully"), st2)
    else
      (ApiResult.httpError 500 "Failed to index document", st2)

/-! ## Agent executor loop (src/agent.py lines 37-71 and 142-148)

`AgentExecutor` is driven by the actions the external LLM chain emits each
round: a `{"action": <tool name>, "action_input": ...}` blob or a
`"Final Answer"`.  The executor looks the named tool up in
`self.tools = [VectorStoreSearch, WebSearch]` and calls it; an invalid tool
name yields an error observation without invoking any tool; it stops at a
final answer or after its iteration cap (default `max_iterations = 15`).
Nothing in the code reorders, filters or gates the dispatched tools. -/

/-- One action emitted by the LLM chain per executor round. -/
inductive LLMAction where
  | toolCall (name input : String)
  | finish (output : String)
deriving DecidableEq

/-- The registered tool names (src/agent.py lines 60-71). -/
def toolNames : List String := ["VectorStoreSearch", "WebSearch"]

/-- The sequence of tool names the `AgentExecutor` actually invokes, in
order, given the actions the LLM emits: dispatch by name for registered
tools, skip invalid names, stop at `"Final Answer"` or when the iteration
cap `fuel` is exhausted. -/
def executed_tools (fuel : Nat) (actions : List LLMAction) : List String :=
  match fuel, actions with
  | 0, _ => []
  | _, [] => []
  | _ + 1, LLMAction.finish _ :: _ => []
  | f + 1, LLMAction.toolCall n _ :: rest =>
    if n ∈ toolNames then n :: executed_tools f rest
    else executed_tools f rest

/-- The claimed precedence policy on a trace of invoked tool names: no
`"WebSearch"` call strictly precedes the first `"VectorStoreSearch"` call. -/
def noWebBeforeDoc (trace : List String) : Prop :=
  "WebSearch" ∉ trace.takeWhile (fun n => n ≠ "VectorStoreSearch")

instance (trace : List String) : Decidable (noWebBeforeDoc trace) := by
  unfold noWebBeforeDoc
  infer_instance

/-- A concrete one-session registry whose session `"s"` has a nonempty
history — used to exercise deletion on concrete inputs. -/
def demoRegistry : Registry :=
  [("s", { memory := WindowMemory.init.addUserMessage "earlier question",
           vectorStore := VSState.initial })]

/-! ## Registry lemmas -/

theorem lookup_insert_absent (r : Registry) (id : String) (a : AgentState)
    (h : Registry.lookup r id = none) :
    Registry.lookup (Registry.insert r id a) id = some a := by
  induction r with
  | nil => simp [Registry.insert, Registry.lookup]
  | cons p rest ih =>
    unfold Registry.lookup at h
    by_cases hp : p.1 = id
    · simp [hp] at h
    · unfold Registry.insert Registry.lookup
      simp only [hp, if_false, List.cons_append]
      exact ih (by simpa [hp] using h)

theorem get_or_create_lookup_self (r : Registry) (disk : Option (List String))
    (id : String) :
    Registry.lookup (get_or_create_agent r disk id).2 id
      = some (get_or_create_agent r disk id).1 := by
  unfold get_or_create_agent
  cases h : Registry.lookup r id with
  | some a => simp [h]
  | none =>
    cases disk with
    | some c => simpa [h] using lookup_insert_absent r id _ h
    | none => simpa [h] using lookup_insert_absent r id _ h

theorem lookup_updateAgent (r : Registry) (id id2 : String)
    (f : AgentState → AgentState) :
    Registry.lookup (Registry.updateAgent r id f) id2
      = if id2 = id then (Registry.lookup r id2).map f
        else Registry.lookup r id2 := by
  induction r with
  | nil => simp [Registry.updateAgent, Registry.lookup]
  | cons p rest ih =>
    have hstep : Registry.updateAgent (p :: rest) id f
        = (if p.1 = id then (p.1, f p.2) else p) :: Registry.updateAgent rest id f := by
      simp [Registry.updateAgent]
    rw [hstep]
    by_cases hpid : p.1 = id
    · by_cases h2 : id2 = id
      · subst h2
        simp [Registry.lookup, hpid, ih]
      · have hp2 : ¬ p.1 = id2 := by
          rw [hpid]; exact fun hh => h2 hh.symm
        have h2x : ¬ id = id2 := fun hh => h2 hh.symm
        simp [Registry.lookup, hpid, hp2, h2, h2x, ih]
    · by_cases hp2 : p.1 = id2
      · have h2 : ¬ id2 = id := by
          rw [← hp2]; exact fun hh => hpid hh
        simp [Registry.lookup, hpid, hp2, h2, ih]
      · simp [Registry.lookup, hpid, hp2, ih]

theorem lookup_map_agents (r : Registry) (g : AgentState → AgentState)
    (id : String) :
    Registry.lookup (r.map (fun p => (p.1, g p.2))) id
      = (Registry.lookup r id).map g := by
  induction r with
  | nil => simp [Registry.lookup]
  | cons p rest ih =>
    unfold Registry.lookup
    by_cases hp : p.1 = id
    · simp [hp, Registry.lookup]
    · simpa [hp, Registry.lookup] using ih

theorem lookup_eraseKey_self (r : Registry) (id : String) :
    Registry.lookup (Registry.eraseKey r id) id = none := by
  induction r with
  | nil => simp [Registry.eraseKey, Registry.lookup]
  | cons p rest ih =>
    unfold Registry.eraseKey
    by_cases hp : p.1 = id
    · simpa [List.filter, hp, Registry.eraseKey] using ih
    · simpa [List.filter, hp, Registry.lookup, Registry.eraseKey] using ih

theorem get_or_create_fresh_memory (r : Registry) (disk : Option (List String))
    (id : String) (h : Registry.lookup r id = none) :
    (get_or_create_agent r disk id).1.memory = WindowMemory.init := by
  unfold get_or_create_agent
  cases disk <;> simp [h, AgentState.initial]

theorem get_or_create_fresh_vs (r : Registry) (c : List String) (id : String)
    (h : Registry.lookup r id = none) :
    (get_or_create_agent r (some c) id).1.vectorStore
      = { vectorstore := some c, retriever := some c } := by
  unfold get_or_create_agent
  simp [h, load_vectorstore]

theorem get_or_create_of_mem (r : Registry) (disk : Option (List String))
    (id : String) (a : AgentState) (h : Registry.lookup r id = some a) :
    get_or_create_agent r disk id = (a, r) := by
  unfold get_or_create_agent
  rw [h]

theorem lookup_map_setVectorStore (r : Registry) (v : VSState) (id : String) :
    Registry.lookup
        (List.map (fun p => (p.1,
          ({ memory := p.2.memory, vectorStore := v } : AgentState))) r) id
      = (Registry.lookup r id).map
          (fun a => { memory := a.memory, vectorStore := v }) :=
  lookup_map_agents r (fun a => { memory := a.memory, vectorStore := v }) id

/-! ## Memory lemmas -/

theorem replay_render (msgs : List Msg) (acc : WindowMemory) :
    (msgs.map renderMessage).foldl replayMessage acc
      = { acc with chatMemory := acc.chatMemory ++ msgs } := by
  induction msgs generalizing acc with
  | nil => simp
  | cons msg rest ih =>
    have hstep : replayMessage acc (renderMessage msg)
        = { acc with chatMemory := acc.chatMemory ++ [msg] } := by
      cases msg with
      | mk role content =>
        cases role <;>
          simp [renderMessage, replayMessage, WindowMemory.addUserMessage,
            WindowMemory.addAiMessage]
    simp only [List.map_cons, List.foldl_cons, hstep, ih, List.append_assoc,
      List.singleton_append]

/-! ## Claim theorems -/

/-- C1: the spec claims that after every sequence of `append` calls the
number of stored messages never exceeds 2·W (W the configured exchange
window) with FIFO eviction of the oldest.  The code (the
`ConversationBufferWindowMemory(k=20)` configured in `RAGAgent.__init__`,
whose stored `chat_memory.messages` list `get_memory_summary` exports)
never evicts from the stored log: after 41 appends the summary holds all
41 messages, which exceeds 2·k = 40 — and a fortiori the 20-message bound
stated by the comment in the source itself, `k=20  # Keep last 20 messages
(10 exchanges)`.  Only the read-side prompt `buffer` is windowed (to
2·k = 40 messages, not the 20 the comment claims). -/
theorem C1_stored_log_exceeds_window :
    (get_memory_summary (appendUserN 41)).length = 41 ∧
    2 * WindowMemory.init.k < 41 ∧
    (appendUserN 41).buffer.length = 2 * WindowMemory.init.k := by
  decide

/-- C2 counterexample: with an empty memory, a question `"hi"` and an
unrecoverable executor failure, `query` returns the error-tagged string
but the memory still contains no message at all — the attempted user
message is *not* recorded on failure, contradicting the claim. -/
theorem C2_counterexample :
    (query WindowMemory.init "hi" (ExecOutcome.failure "boom")).1
      = "Agent error: boom" ∧
    (query WindowMemory.init "hi" (ExecOutcome.failure "boom")).2.chatMemory
      = [] := by
  decide

/-- C2 (amended): on any unrecoverable failure `query` returns the
error-tagged string `"Agent error: ..."` and leaves the Memory exactly as
it was (the attempted user message is not recorded); the user message and
the answer are appended only on success. -/
theorem C2_failure_tagged_memory_untouched (m : WindowMemory) (q e out : String) :
    (query m q (ExecOutcome.failure e)).1 = "Agent error: " ++ e ∧
    (query m q (ExecOutcome.failure e)).2 = m ∧
    query m q (ExecOutcome.success out) = (out, m.saveContext q out) ∧
    Msg.mk Role.user q ∈ (query m q (ExecOutcome.success out)).2.chatMemory := by
  refine ⟨rfl, rfl, rfl, ?_⟩
  simp [query, WindowMemory.saveContext, WindowMemory.addUserMessage,
    WindowMemory.addAiMessage]

/-- C3 counterexample: for a 41-message log, export→clear→import
reproduces all 41 messages unchanged; it is *not* truncated to the most
recent 2·W (neither 40, the `k=20` window as langchain reads it, nor 20,
as the source comment reads it), although the log exceeds both bounds —
because `import` replays through appends that never evict. -/
theorem C3_counterexample :
    get_memory_summary (load_memory_from_messages WindowMemory.init
        (get_memory_summary (appendUserN 41)))
      = get_memory_summary (appendUserN 41) ∧
    (get_memory_summary (appendUserN 41)).length = 41 ∧
    get_memory_summary (load_memory_from_messages WindowMemory.init
        (get_memory_summary (appendUserN 41)))
      ≠ (get_memory_summary (appendUserN 41)).drop 1 ∧
    get_memory_summary (load_memory_from_messages WindowMemory.init
        (get_memory_summary (appendUserN 41)))
      ≠ (get_memory_summary (appendUserN 41)).drop 21 := by
  decide

/-- C3 (amended): `export()` → `clear()` → `import(exported)` always
reproduces the exported message log exactly, with no truncation at any
length — the replayed appends perform no eviction on the stored log.
(The intermediate `clear()` is subsumed: `load_memory_from_messages`
itself clears first, so the round trip holds from any starting state of
the re-imported memory.) -/
theorem C3_export_import_roundtrip (m mimport : WindowMemory) :
    get_memory_summary (load_memory_from_messages mimport (get_memory_summary m))
      = get_memory_summary m := by
  unfold load_memory_from_messages get_memory_summary
  rw [replay_render]
  simp [WindowMemory.clear]

/-- C4: `get_or_create_agent` called twice with the same id returns the
very same agent and leaves the registry untouched on the second call; and
for two distinct ids, mutating the memory of the agent of one id (here: an
append) leaves the agent mapped to the other id exactly as it was. -/
theorem C4_registry_idempotent_independent (r : Registry)
    (disk : Option (List String)) (id id1 id2 c : String) (hne : id1 ≠ id2) :
    get_or_create_agent (get_or_create_agent r disk id).2 disk id
      = ((get_or_create_agent r disk id).1, (get_or_create_agent r disk id).2) ∧
    Registry.lookup (Registry.updateAgent r id1
        (fun a => { a with memory := a.memory.addUserMessage c })) id2
      = Registry.lookup r id2 := by
  constructor
  · exact get_or_create_of_mem _ disk id _ (get_or_create_lookup_self r disk id)
  · rw [lookup_updateAgent, if_neg (fun h => hne h.symm)]

/-- C4 witness at concrete inputs: the demo registry, session `"s"`
created twice, and two distinct ids `"a"`, `"b"`. -/
theorem C4_witness :
    get_or_create_agent (get_or_create_agent demoRegistry none "s").2 none "s"
      = ((get_or_create_agent demoRegistry none "s").1,
         (get_or_create_agent demoRegistry none "s").2) ∧
    Registry.lookup (Registry.updateAgent demoRegistry "a"
        (fun a => { a with memory := a.memory.addUserMessage "x" })) "b"
      = Registry.lookup demoRegistry "b" :=
  C4_registry_idempotent_independent demoRegistry none "s" "a" "b" "x" (by decide)

/-- C5 counterexample: an ingestion whose PDF load and index build succeed
but whose final `save_local` fails returns failure, yet the in-memory
vector store of the agent has already been swapped to the new index — the
state observable after the failed call is *not* unchanged. -/
theorem C5_counterexample :
    (load_documents VSState.initial (some ["old chunk"])
        { pdfLoad := some ["new chunk"], buildOk := true, saveOk := false,
          diskAfterFailedSave := some ["old chunk"] }).1 = false ∧
    (load_documents VSState.initial (some ["old chunk"])
        { pdfLoad := some ["new chunk"], buildOk := true, saveOk := false,
          diskAfterFailedSave := some ["old chunk"] }).2.1 ≠ VSState.initial ∧
    (load_documents VSState.initial (some ["old chunk"])
        { pdfLoad := some ["new chunk"], buildOk := true, saveOk := false,
          diskAfterFailedSave := some ["old chunk"] }).2.1.vectorstore
      = some ["new chunk"] := by
  decide

/-- C5 (amended): a failed ingestion leaves the vector store of the agent and
the on-disk index unchanged when the failure happens while loading or
splitting the PDF or while building the index; but when the failure
happens in the final save-to-disk step, the in-memory vector store has
already been swapped to the newly built index (and the disk is left with
whatever the interrupted write produced) even though failure is
reported. -/
theorem C5_failure_atomicity (vs : VSState) (disk : Option (List String))
    (env : IngestEnv) :
    ((env.pdfLoad = none ∨ env.buildOk = false) →
      load_documents vs disk env = (false, vs, disk)) ∧
    (∀ cs, env.pdfLoad = some cs → env.buildOk = true → env.saveOk = false →
      load_documents vs disk env
        = (false, { vectorstore := some cs, retriever := some cs },
           env.diskAfterFailedSave)) := by
  constructor
  · rintro (h | h) <;> cases henv : env.pdfLoad <;>
      simp_all [load_documents]
  · intro cs h1 h2 h3
    simp [load_documents, h1, h2, h3]

/-- C5 witness: the amended theorem applied at two concrete environments —
a PDF-load failure (state fully preserved) and a save failure (in-memory
index already swapped). -/
theorem C5_witness :
    load_documents VSState.initial (some ["old chunk"])
        { pdfLoad := none, buildOk := true, saveOk := true,
          diskAfterFailedSave := none }
      = (false, VSState.initial, some ["old chunk"]) ∧
    load_documents VSState.initial (some ["old chunk"])
        { pdfLoad := some ["new chunk"], buildOk := true, saveOk := false,
          diskAfterFailedSave := some ["old chunk"] }
      = (false, { vectorstore := some ["new chunk"], retriever := some ["new chunk"] },
         some ["old chunk"]) :=
  ⟨(C5_failure_atomicity VSState.initial (some ["old chunk"]) _).1 (Or.inl rfl),
   (C5_failure_atomicity VSState.initial (some ["old chunk"]) _).2
     ["new chunk"] rfl rfl rfl⟩

/-- C6 counterexample: an LLM whose first emitted action is a `WebSearch`
tool call makes the executor invoke web search as the very first (and
only) tool — no document search precedes it, violating the claimed
precedence. -/
theorem C6_counterexample :
    executed_tools 15
        [LLMAction.toolCall "WebSearch" "anything", LLMAction.finish "done"]
      = ["WebSearch"] ∧
    ¬ noWebBeforeDoc (executed_tools 15
        [LLMAction.toolCall "WebSearch" "anything", LLMAction.finish "done"]) := by
  decide

/-- C6 (amended): the executor enforces no tool precedence — it dispatches
exactly the tools the LLM names, in order; the document-before-web policy
lives only in the prompt text.  Whenever the first action of the LLM names
`WebSearch`, the executed tool sequence begins with `WebSearch` (for any
positive iteration budget and any continuation), so the claimed precedence
predicate fails. -/
theorem C6_no_precedence_enforced (fuel : Nat) (input : String)
    (rest : List LLMAction) :
    executed_tools (fuel + 1) (LLMAction.toolCall "WebSearch" input :: rest)
      = "WebSearch" :: executed_tools fuel rest ∧
    ¬ noWebBeforeDoc (executed_tools (fuel + 1)
        (LLMAction.toolCall "WebSearch" input :: rest)) := by
  have h1 : executed_tools (fuel + 1)
        (LLMAction.toolCall "WebSearch" input :: rest)
      = "WebSearch" :: executed_tools fuel rest := by
    simp [executed_tools, toolNames]
  refine ⟨h1, ?_⟩
  rw [h1]
  unfold noWebBeforeDoc
  simp [List.takeWhile]

/-- C7: uploading a file whose name does not end in `.pdf` is rejected
with HTTP 400 and the whole server state — registry, the on-disk index
path, the documents directory — is returned untouched: the check is the
first statement of the handler, before any file write or agent/index
access. -/
theorem C7_non_pdf_rejected_before_mutation (st : ServerState)
    (filename : String) (sid : Option String) (env : IngestEnv)
    (h : pyEndsWith filename ".pdf" = false) :
    upload_document st filename sid env
      = (ApiResult.httpError 400 "Only PDF files are supported", st) := by
  unfold upload_document
  simp [h]

/-- C7 witness: uploading `"notes.txt"` against a server with one live
session and an existing index is rejected with 400 and changes nothing. -/
theorem C7_witness :
    upload_document
        { registry := demoRegistry, disk := some ["old chunk"],
          documentsDir := ["a.pdf"] }
        "notes.txt" none
        { pdfLoad := some ["x"], buildOk := true, saveOk := true,
          diskAfterFailedSave := none }
      = (ApiResult.httpError 400 "Only PDF files are supported",
         { registry := demoRegistry, disk := some ["old chunk"],
           documentsDir := ["a.pdf"] }) :=
  C7_non_pdf_rejected_before_mutation _ _ _ _ (by decide)

/-- C8: deleting a registered session succeeds and a subsequent
`get_or_create_agent` for the same id builds a brand-new agent whose
memory log is empty (no message of the deleted history survives), and
deleting an unknown id raises 404 leaving the registry unchanged. -/
theorem C8_delete_then_fresh (r : Registry) (disk : Option (List String))
    (id : String) :
    ((Registry.lookup r id).isSome →
      (delete_session r id).1
        = ApiResult.ok ("Session " ++ id ++ " deleted successfully") ∧
      (get_or_create_agent (delete_session r id).2 disk id).1.memory.chatMemory
        = []) ∧
    (Registry.lookup r id = none →
      delete_session r id = (ApiResult.httpError 404 "Session not found", r)) := by
  constructor
  · intro h
    obtain ⟨a, ha⟩ := Option.isSome_iff_exists.mp h
    unfold delete_session
    rw [ha]
    refine ⟨rfl, ?_⟩
    rw [get_or_create_fresh_memory _ disk id (lookup_eraseKey_self r id)]
    rfl
  · intro h
    unfold delete_session
    rw [h]

/-- C8 witness: the demo registry (session `"s"` with one recorded user
message): delete succeeds and recreation yields an empty history; deleting
the unknown id `"missing"` yields 404. -/
theorem C8_witness :
    ((delete_session demoRegistry "s").1
        = ApiResult.ok ("Session " ++ "s" ++ " deleted successfully") ∧
      (get_or_create_agent (delete_session demoRegistry "s").2 none "s").1.memory.chatMemory
        = []) ∧
    delete_session demoRegistry "missing"
      = (ApiResult.httpError 404 "Session not found", demoRegistry) :=
  ⟨(C8_delete_then_fresh demoRegistry none "s").1 (by decide),
   (C8_delete_then_fresh demoRegistry none "missing").2 (by decide)⟩

/-- C10: a session-clear request never yields 404: it always returns the
success message for the resolved session id, the resolved id is mapped
afterwards to an agent whose message log is empty (a fresh agent is
silently constructed when the id was unknown — the registry `r` is
arbitrary here), and when the request carries no session id (or the falsy
empty string) the resolved id is the freshly generated uuid. -/
theorem C10_clear_always_succeeds (r : Registry) (disk : Option (List String))
    (reqSid : Option String) (fresh : String) :
    (clear_session r disk reqSid fresh).1
      = ApiResult.ok (clear_session_sid reqSid fresh,
          "Session memory cleared successfully") ∧
    (Registry.lookup (clear_session r disk reqSid fresh).2
        (clear_session_sid reqSid fresh)).map (fun a => a.memory.chatMemory)
      = some [] ∧
    clear_session_sid none fresh = fresh ∧
    clear_session_sid (some "") fresh = fresh := by
  refine ⟨rfl, ?_, rfl, rfl⟩
  show (Registry.lookup
      (Registry.updateAgent (get_or_create_agent r disk
          (clear_session_sid reqSid fresh)).2
        (clear_session_sid reqSid fresh)
        (fun a => { a with memory := a.memory.clear }))
      (clear_session_sid reqSid fresh)).map (fun a => a.memory.chatMemory)
    = some []
  rw [lookup_updateAgent, if_pos rfl, get_or_create_lookup_self]
  simp [WindowMemory.clear]

/-- C9: a successful ingestion — with or without an explicit session id —
leaves the shared on-disk path holding an index built from exactly the
chunks of the newly uploaded file (any previously indexed documents are
discarded, for *any* prior server state), installs that same index as the
in-memory store of the ingesting session, returns the success message, and any
session created afterwards (an id not yet in the registry) attaches that
replaced shared index. -/
theorem C9_ingestion_replaces_shared_index (st : ServerState)
    (filename : String) (sid : Option String) (cs : List String)
    (dAF : Option (List String))
    (hpdf : pyEndsWith filename ".pdf" = true) :
    (upload_document st filename sid
        { pdfLoad := some cs, buildOk := true, saveOk := true,
          diskAfterFailedSave := dAF }).2.disk = some cs ∧
    (Registry.lookup (upload_document st filename sid
        { pdfLoad := some cs, buildOk := true, saveOk := true,
          diskAfterFailedSave := dAF }).2.registry (upload_target sid)).map
        (fun a => a.vectorStore.vectorstore)
      = some (some cs) ∧
    (upload_document st filename sid
        { pdfLoad := some cs, buildOk := true, saveOk := true,
          diskAfterFailedSave := dAF }).1
      = ApiResult.ok ("Document " ++ filename ++ " uploaded and indexed successfully") ∧
    (∀ freshId, Registry.lookup (upload_document st filename sid
          { pdfLoad := some cs, buildOk := true, saveOk := true,
            diskAfterFailedSave := dAF }).2.registry freshId = none →
      (get_or_create_agent (upload_document st filename sid
            { pdfLoad := some cs, buildOk := true, saveOk := true,
              diskAfterFailedSave := dAF }).2.registry
          (upload_document st filename sid
            { pdfLoad := some cs, buildOk := true, saveOk := true,
              diskAfterFailedSave := dAF }).2.disk
          freshId).1.vectorStore.vectorstore = some cs) := by
  have habc : (upload_document st filename sid
        { pdfLoad := some cs, buildOk := true, saveOk := true,
          diskAfterFailedSave := dAF }).2.disk = some cs ∧
      (Registry.lookup (upload_document st filename sid
          { pdfLoad := some cs, buildOk := true, saveOk := true,
            diskAfterFailedSave := dAF }).2.registry (upload_target sid)).map
          (fun a => a.vectorStore.vectorstore)
        = some (some cs) ∧
      (upload_document st filename sid
          { pdfLoad := some cs, buildOk := true, saveOk := true,
            diskAfterFailedSave := dAF }).1
        = ApiResult.ok ("Document " ++ filename ++ " uploaded and indexed successfully") := by
    rcases sid with _ | s
    · unfold upload_document upload_target
      simp [hpdf, load_documents, load_vectorstore, lookup_map_setVectorStore,
        lookup_updateAgent, get_or_create_lookup_self]
    · by_cases hs : s = ""
      · unfold upload_document upload_target
        simp [hpdf, hs, load_documents, load_vectorstore,
          lookup_map_setVectorStore, lookup_updateAgent,
          get_or_create_lookup_self]
      · unfold upload_document upload_target
        simp [hpdf, hs, load_documents, load_vectorstore,
          lookup_updateAgent, get_or_create_lookup_self]
  refine ⟨habc.1, habc.2.1, habc.2.2, ?_⟩
  intro freshId hnone
  rw [habc.1, get_or_create_fresh_vs _ cs freshId hnone]

/-- C9 witness: starting from a server whose disk and registry hold older
state, a session-targeted upload of `"doc.pdf"` producing chunk list
`["page 1 chunk"]` replaces both the store of session `"s"` and the shared disk
index, succeeds, and a later fresh session `"later"` loads the new
index. -/
theorem C9_witness :
    (upload_document
        { registry := demoRegistry, disk := some ["old chunk"],
          documentsDir := [] }
        "doc.pdf" (some "s")
        { pdfLoad := some ["page 1 chunk"], buildOk := true, saveOk := true,
          diskAfterFailedSave := none }).2.disk = some ["page 1 chunk"] ∧
    (Registry.lookup (upload_document
        { registry := demoRegistry, disk := some ["old chunk"],
          documentsDir := [] }
        "doc.pdf" (some "s")
        { pdfLoad := some ["page 1 chunk"], buildOk := true, saveOk := true,
          diskAfterFailedSave := none }).2.registry
        (upload_target (some "s"))).map (fun a => a.vectorStore.vectorstore)
      = some (some ["page 1 chunk"]) ∧
    (get_or_create_agent (upload_document
          { registry := demoRegistry, disk := some ["old chunk"],
            documentsDir := [] }
          "doc.pdf" (some "s")
          { pdfLoad := some ["page 1 chunk"], buildOk := true, saveOk := true,
            diskAfterFailedSave := none }).2.registry
        (upload_document
          { registry := demoRegistry, disk := some ["old chunk"],
            documentsDir := [] }
          "doc.pdf" (some "s")
          { pdfLoad := some ["page 1 chunk"], buildOk := true, saveOk := true,
            diskAfterFailedSave := none }).2.disk
        "later").1.vectorStore.vectorstore = some ["page 1 chunk"] := by
  refine ⟨(C9_ingestion_replaces_shared_index _ "doc.pdf" (some "s")
      ["page 1 chunk"] none (by decide)).1,
    (C9_ingestion_replaces_shared_index _ "doc.pdf" (some "s")
      ["page 1 chunk"] none (by decide)).2.1,
    (C9_ingestion_replaces_shared_index _ "doc.pdf" (some "s")
      ["page 1 chunk"] none (by decide)).2.2.2 "later" (by decide)⟩

end RAGChatbot
